import Mathlib

/-!
Verification of the `info_tech_cli` command-line dispatcher
(`src/info_tech_cli/cli.py`) against its natural-language specification.

The program is a thin Click-based dispatcher. We embed it shallowly:

* `Env` is the process environment restricted to the one variable the
  program reads (`GITHUB_TOKEN`); `os.getenv` returning `None` is `none`.
* `ClickCtx` is the Click invocation context: its `obj` field is the
  mutable per-invocation dictionary (`None` before `ctx.ensure_object`).
* A run is recorded as a list of `Event`s: `echoOut`/`echoErr` mirror
  `click.echo(...)` without / with `err=True`, and the two handler-call
  events record the exact call made to the external handlers
  `create_module` / `delete_module` (whose bodies are outside this
  repository; their outcome is abstracted by a `HandlerBehavior`).
* Option parsing mirrors the decorators on `create`: `click.Choice`
  validation for `--difficulty` and `--language`, defaults for the rest.
  Click runs the group callback (context setup and the token warning)
  before it parses the chosen sub-command's own parameters, so a choice
  violation yields a `usageError` outcome after the warning events.
* `main` is the entry point `main()` of `cli.py`: it invokes the group
  with `obj={}` and converts `KeyboardInterrupt` into a cancellation
  notice on standard output with exit code 1, and any other exception
  into a message on the error stream with exit code 1.  A usage error is
  reported by the parsing layer itself with exit code 2.
-/

namespace InfoTechCli

/-- The per-invocation mutable dictionary (`ctx.obj`); the program only
creates it empty, handlers may populate it. -/
abbrev Dict := List (String × String)

/-- Process environment restricted to the variable the program reads.
`os.getenv('GITHUB_TOKEN')` is `none` when the variable is unset. -/
structure Env where
  githubToken : Option String
deriving Repr, DecidableEq

/-- Python truthiness of `os.getenv('GITHUB_TOKEN')`: `None` and the
empty string are falsy, every other string is truthy
(cli.py line 35: `if not github_token`). -/
def tokenFalsy : Option String → Bool
  | none => true
  | some s => s == ""

/-- The Click context as the program uses it: only its `obj` attribute,
`none` until something assigns it. -/
structure ClickCtx where
  obj : Option Dict
deriving Repr, DecidableEq

/-- The call `ctx.ensure_object(dict)` (cli.py line 31): create an empty dict as
`ctx.obj` when it is still `None`, keep it otherwise. -/
def ensureObject (ctx : ClickCtx) : ClickCtx :=
  match ctx.obj with
  | none => { obj := some [] }
  | some d => { obj := some d }

/-- Observable steps of one process invocation. -/
inductive Event where
  /-- Output of `click.echo(s)` to standard output. -/
  | echoOut (s : String)
  /-- Output of `click.echo(s, err=True)` to the error stream. -/
  | echoErr (s : String)
  /-- The call `create_module(ctx, name, template, category, difficulty,
  language, interactive)` (cli.py line 65). -/
  | callCreateModule (ctx : ClickCtx) (name template category difficulty language : String)
      (interactive : Bool)
  /-- The call `delete_module(ctx, name, force, remove_repo)`
  (cli.py line 83). -/
  | callDeleteModule (ctx : ClickCtx) (name : String) (force removeRepo : Bool)
deriving Repr, DecidableEq

/-- The `click.Choice` domain of `--difficulty` (cli.py line 47). -/
def difficultyChoices : List String := ["beginner", "intermediate", "advanced"]

/-- The `click.Choice` domain of `--language` (cli.py line 50). -/
def languageChoices : List String := ["ru", "en"]

/-- Raw option values of the `create` sub-command as supplied on the
command line, with Click's declared defaults filled in for the options
the caller omitted (cli.py lines 42-53). -/
structure CreateOpts where
  template : String := "module-basic"
  category : String := "programming"
  difficulty : String := "beginner"
  language : String := "ru"
  interactive : Bool := false
deriving Repr, DecidableEq

/-- A raw command line: the chosen sub-command with its argument and
option values, before enumerated-choice validation. -/
inductive RawCommand where
  | create (moduleName : String) (opts : CreateOpts)
  | delete (moduleName : String) (force removeRepo : Bool)
  | validate (path : String)
  | version
deriving Repr, DecidableEq

/-- A Click usage error from `click.Choice` validation: the offending
parameter, the rejected value, and the permitted set that the error
message reports. -/
structure UsageError where
  param : String
  given : String
  choices : List String
deriving Repr, DecidableEq

/-- A validated command, ready for dispatch to its callback. -/
inductive Command where
  | create (moduleName template category difficulty language : String) (interactive : Bool)
  | delete (moduleName : String) (force removeRepo : Bool)
  | validate (path : String)
  | version
deriving Repr, DecidableEq

/-- Click's parameter processing of the chosen sub-command.  Only
`create` constrains values: `--difficulty` and `--language` are
`click.Choice` options and fail with a usage error outside their
domain (parameters are processed in declaration order). -/
def parseCommand : RawCommand → Except UsageError Command
  | .create name o =>
      if o.difficulty ∈ difficultyChoices then
        if o.language ∈ languageChoices then
          .ok (.create name o.template o.category o.difficulty o.language o.interactive)
        else
          .error ⟨"--language", o.language, languageChoices⟩
      else
        .error ⟨"--difficulty", o.difficulty, difficultyChoices⟩
  | .delete name force removeRepo => .ok (.delete name force removeRepo)
  | .validate path => .ok (.validate path)
  | .version => .ok .version

/-- Result of the body of an external handler (`create_module` or
`delete_module`): return normally, be interrupted by the user, or raise
some other exception with a message. -/
inductive HandlerResult where
  | normal
  | keyboardInterrupt
  | exception (msg : String)
deriving Repr, DecidableEq

/-- Abstraction of the external handlers' bodies: what the handler call
does, as a function of the dispatched command and the context it was
handed.  The handlers live outside this repository. -/
abbrev HandlerBehavior := Command → ClickCtx → HandlerResult

/-- The three warning lines of the group callback (cli.py lines 36-38),
printed when the token is missing. -/
def warningLines : List String :=
  ["Warning: GITHUB_TOKEN not found in environment",
   "Some features may not work properly.",
   "Please set GITHUB_TOKEN in your .env file."]

/-- The events the group callback `cli` emits for a given environment:
the three warning lines exactly when the token is falsy
(cli.py lines 33-38). -/
def warnEventsOf (env : Env) : List Event :=
  if tokenFalsy env.githubToken then warningLines.map Event.echoOut else []

/-- Dispatch of a validated command to its callback (cli.py lines
55-104): `create` and `delete` call their external handler with the
shared context; `validate` and `version` only echo fixed text. -/
def runCommand (hb : HandlerBehavior) (ctx : ClickCtx) : Command → List Event × HandlerResult
  | .create name template category difficulty language interactive =>
      ([.callCreateModule ctx name template category difficulty language interactive],
       hb (.create name template category difficulty language interactive) ctx)
  | .delete name force removeRepo =>
      ([.callDeleteModule ctx name force removeRepo],
       hb (.delete name force removeRepo) ctx)
  | .validate path =>
      ([.echoOut ("🔍 Validating module at: " ++ path),
        .echoOut "⚠️  Validation feature coming soon..."], .normal)
  | .version =>
      ([.echoOut "info_tech_cli version 0.1.0",
        .echoOut "InfoTech.io Educational Platform CLI",
        .echoOut "Author: A1eksMa <a1ex_ma@mail.ru>"], .normal)

/-- How one invocation of the group ended. -/
inductive Outcome where
  /-- The sub-command's callback returned normally. -/
  | completed
  /-- Parameter parsing rejected a value; no callback ran. -/
  | usageError (e : UsageError)
  /-- A `KeyboardInterrupt` escaped the sub-command. -/
  | keyboardInterrupt
  /-- Some other exception escaped the sub-command. -/
  | exception (msg : String)
deriving Repr, DecidableEq

/-- Events and outcome of one invocation of the group. -/
structure RunResult where
  events : List Event
  outcome : Outcome
deriving Repr, DecidableEq

/-- How a handler's result surfaces as the invocation's outcome: a
normal return completes the run, an escaping interrupt or exception
propagates out of the group call unchanged. -/
def outcomeOfResult : HandlerResult → Outcome
  | .normal => .completed
  | .keyboardInterrupt => .keyboardInterrupt
  | .exception m => .exception m

/-- One invocation of the Click group `cli` with context object `obj`
and raw command line `raw`: Click builds the group context
(`ensure_object`), runs the group callback (the token check), then
parses the chosen sub-command's parameters — failing there with a usage
error before any handler runs — and finally invokes the callback. -/
def cliInvoke (hb : HandlerBehavior) (env : Env) (obj : Option Dict)
    (raw : RawCommand) : RunResult :=
  let ctx := ensureObject { obj := obj }
  let warnEvents := warnEventsOf env
  match parseCommand raw with
  | .error e => { events := warnEvents, outcome := .usageError e }
  | .ok cmd =>
      let pr := runCommand hb ctx cmd
      { events := warnEvents ++ pr.1, outcome := outcomeOfResult pr.2 }

/-- Events and exit code of the whole process. -/
structure MainResult where
  events : List Event
  exitCode : Nat
deriving Repr, DecidableEq

/-- The cancellation notice of cli.py line 111 (printed without
`err=True`, hence to standard output). -/
def cancellationNotice : String := "\n⚠️  Operation cancelled by user"

/-- The failure-marker prefix of cli.py line 114 (printed with
`err=True`, hence to the error stream). -/
def failureMarker : String := "❌ Error: "

/-- The entry point `main()` (cli.py lines 106-115): invoke the group
with `obj={}`; turn `KeyboardInterrupt` into the cancellation notice on
standard output and exit code 1; turn any other exception into the
failure-marker message on the error stream and exit code 1; a usage
error is reported by the parsing layer with exit code 2; otherwise
exit code 0. -/
def main (hb : HandlerBehavior) (env : Env) (raw : RawCommand) : MainResult :=
  let r := cliInvoke hb env (some []) raw
  match r.outcome with
  | .completed => { events := r.events, exitCode := 0 }
  | .usageError _ => { events := r.events, exitCode := 2 }
  | .keyboardInterrupt =>
      { events := r.events ++ [.echoOut cancellationNotice], exitCode := 1 }
  | .exception m =>
      { events := r.events ++ [.echoErr (failureMarker ++ m)], exitCode := 1 }

/-- Is this event a call to one of the external handlers? -/
def Event.isHandlerCall : Event → Bool
  | .callCreateModule .. => true
  | .callDeleteModule .. => true
  | _ => false

/-- Is this event output to the error stream? -/
def Event.isErr : Event → Bool
  | .echoErr _ => true
  | _ => false

/-- The handler calls recorded in a trace. -/
def handlerCalls (l : List Event) : List Event := l.filter Event.isHandlerCall

/-- The error-stream output recorded in a trace. -/
def errEvents (l : List Event) : List Event := l.filter Event.isErr

/-- The context object a handler-call event hands its handler, when the
event is a handler call. -/
def Event.handlerCtx : Event → Option ClickCtx
  | .callCreateModule ctx .. => some ctx
  | .callDeleteModule ctx .. => some ctx
  | _ => none

/-- A behavior under which every handler returns normally. -/
def normalBehavior : HandlerBehavior := fun _ _ => .normal

/-- A behavior under which every handler is interrupted by the user. -/
def interruptBehavior : HandlerBehavior := fun _ _ => .keyboardInterrupt

/-- A behavior under which every handler raises with message `m`. -/
def raisingBehavior (m : String) : HandlerBehavior := fun _ _ => .exception m

/-! ### Helper lemmas -/

theorem handlerCalls_append (a b : List Event) :
    handlerCalls (a ++ b) = handlerCalls a ++ handlerCalls b :=
  List.filter_append a b

theorem errEvents_append (a b : List Event) :
    errEvents (a ++ b) = errEvents a ++ errEvents b :=
  List.filter_append a b

theorem handlerCalls_warnEventsOf (env : Env) : handlerCalls (warnEventsOf env) = [] := by
  unfold warnEventsOf
  split
  · rfl
  · rfl

theorem errEvents_warnEventsOf (env : Env) : errEvents (warnEventsOf env) = [] := by
  unfold warnEventsOf
  split
  · rfl
  · rfl

theorem errEvents_runCommand (hb : HandlerBehavior) (ctx : ClickCtx) (cmd : Command) :
    errEvents (runCommand hb ctx cmd).1 = [] := by
  cases cmd <;> rfl

theorem cliInvoke_ok (hb : HandlerBehavior) (env : Env) (obj : Option Dict)
    (raw : RawCommand) (cmd : Command) (hp : parseCommand raw = .ok cmd) :
    cliInvoke hb env obj raw =
      { events := warnEventsOf env ++ (runCommand hb (ensureObject { obj := obj }) cmd).1,
        outcome := outcomeOfResult (runCommand hb (ensureObject { obj := obj }) cmd).2 } := by
  unfold cliInvoke
  rw [hp]

theorem cliInvoke_error (hb : HandlerBehavior) (env : Env) (obj : Option Dict)
    (raw : RawCommand) (e : UsageError) (hp : parseCommand raw = .error e) :
    cliInvoke hb env obj raw = { events := warnEventsOf env, outcome := .usageError e } := by
  unfold cliInvoke
  rw [hp]

/-- No invocation of the group itself writes to the error stream: all
its output (warnings, validate/version text) goes to standard output,
and handler calls are not echoes. -/
theorem errEvents_cliInvoke (hb : HandlerBehavior) (env : Env) (obj : Option Dict)
    (raw : RawCommand) : errEvents (cliInvoke hb env obj raw).events = [] := by
  cases h : parseCommand raw with
  | error e =>
      rw [cliInvoke_error hb env obj raw e h]
      exact errEvents_warnEventsOf env
  | ok cmd =>
      rw [cliInvoke_ok hb env obj raw cmd h]
      show errEvents (warnEventsOf env ++ _) = []
      rw [errEvents_append, errEvents_warnEventsOf, errEvents_runCommand]
      rfl

theorem main_completed (hb : HandlerBehavior) (env : Env) (raw : RawCommand)
    (h : (cliInvoke hb env (some []) raw).outcome = .completed) :
    main hb env raw = { events := (cliInvoke hb env (some []) raw).events, exitCode := 0 } := by
  simp only [main]
  rw [h]

theorem main_usageError (hb : HandlerBehavior) (env : Env) (raw : RawCommand) (e : UsageError)
    (h : (cliInvoke hb env (some []) raw).outcome = .usageError e) :
    main hb env raw = { events := (cliInvoke hb env (some []) raw).events, exitCode := 2 } := by
  simp only [main]
  rw [h]

theorem main_interrupt (hb : HandlerBehavior) (env : Env) (raw : RawCommand)
    (h : (cliInvoke hb env (some []) raw).outcome = .keyboardInterrupt) :
    main hb env raw =
      { events := (cliInvoke hb env (some []) raw).events ++ [.echoOut cancellationNotice],
        exitCode := 1 } := by
  simp only [main]
  rw [h]

theorem main_exception (hb : HandlerBehavior) (env : Env) (raw : RawCommand) (m : String)
    (h : (cliInvoke hb env (some []) raw).outcome = .exception m) :
    main hb env raw =
      { events := (cliInvoke hb env (some []) raw).events ++ [.echoErr (failureMarker ++ m)],
        exitCode := 1 } := by
  simp only [main]
  rw [h]

/-- The entry point only ever appends echo events to the group's trace,
so the handler calls of a whole process run are those of the group
invocation. -/
theorem handlerCalls_main (hb : HandlerBehavior) (env : Env) (raw : RawCommand) :
    handlerCalls (main hb env raw).events =
      handlerCalls (cliInvoke hb env (some []) raw).events := by
  cases h : (cliInvoke hb env (some []) raw).outcome with
  | completed => rw [main_completed hb env raw h]
  | usageError e => rw [main_usageError hb env raw e h]
  | keyboardInterrupt =>
      rw [main_interrupt hb env raw h]
      show handlerCalls (_ ++ _) = _
      rw [handlerCalls_append]
      exact List.append_nil _
  | exception m =>
      rw [main_exception hb env raw m h]
      show handlerCalls (_ ++ _) = _
      rw [handlerCalls_append]
      exact List.append_nil _

/-- Two strings whose first characters differ are different. -/
theorem ne_of_head_ne (a b : String) (h : a.data.head? ≠ b.data.head?) : a ≠ b :=
  fun hEq => h (congrArg (fun s => s.data.head?) hEq)

/-- The cancellation notice is distinguishable from every generic
failure message: no failure message (the failure marker followed by an
exception text) equals it, whatever the exception text. -/
theorem cancellationNotice_ne_failure (m : String) :
    cancellationNotice ≠ failureMarker ++ m := by
  apply ne_of_head_ne
  show cancellationNotice.data.head? ≠ some '❌'
  decide

/-- The validate command's path message never collides with the
token-warning line, whatever the path. -/
theorem validateMsg_ne_warning (p : String) :
    ("🔍 Validating module at: " ++ p) ≠
      "Warning: GITHUB_TOKEN not found in environment" := by
  apply ne_of_head_ne
  show some '🔍' ≠ ("Warning: GITHUB_TOKEN not found in environment" : String).data.head?
  decide

/-- Does this event echo the first token-warning line to standard
output? -/
def isWarnHead : Event → Bool
  | .echoOut s => s == "Warning: GITHUB_TOKEN not found in environment"
  | _ => false

/-- How many times a trace echoes the first token-warning line. -/
def warnCount (l : List Event) : Nat := (l.filter isWarnHead).length

theorem warnCount_append (a b : List Event) :
    warnCount (a ++ b) = warnCount a + warnCount b := by
  unfold warnCount
  rw [List.filter_append, List.length_append]

theorem warnCount_warningLines : warnCount (warningLines.map Event.echoOut) = 1 := by
  decide

theorem isWarnHead_validateMsg (p : String) :
    isWarnHead (.echoOut ("🔍 Validating module at: " ++ p)) = false := by
  simp only [isWarnHead, beq_eq_false_iff_ne, ne_eq]
  exact validateMsg_ne_warning p

/-- No sub-command's own output repeats the token-warning line: the
handler calls are not echoes, and the fixed texts of `validate` and
`version` differ from it. -/
theorem warnCount_runCommand (hb : HandlerBehavior) (ctx : ClickCtx) (cmd : Command) :
    warnCount (runCommand hb ctx cmd).1 = 0 := by
  cases cmd with
  | create n t c d l i => rfl
  | delete n f r => rfl
  | validate p =>
      show warnCount [.echoOut ("🔍 Validating module at: " ++ p),
        .echoOut "⚠️  Validation feature coming soon..."] = 0
      have h2 : isWarnHead (.echoOut "⚠️  Validation feature coming soon...") = false := by
        decide
      simp [warnCount, List.filter, isWarnHead_validateMsg p, h2]
  | version => rfl

/-! ### Claim theorems -/

/-- Claim C1: for every invocation of the `create` command with a
`--difficulty` value outside beginner/intermediate/advanced, or a
`--language` value outside ru/en, argument parsing fails with a usage
error reporting the permitted set, and the creation handler
`create_module` is never invoked (no handler-call event occurs). -/
theorem create_invalid_choice_usage_error (hb : HandlerBehavior) (env : Env)
    (name : String) (o : CreateOpts)
    (h : o.difficulty ∉ difficultyChoices ∨ o.language ∉ languageChoices) :
    (∃ e : UsageError,
        (cliInvoke hb env (some []) (.create name o)).outcome = .usageError e ∧
        (e.choices = difficultyChoices ∨ e.choices = languageChoices)) ∧
    handlerCalls (cliInvoke hb env (some []) (.create name o)).events = [] := by
  by_cases hd : o.difficulty ∈ difficultyChoices
  · have hl : o.language ∉ languageChoices := h.resolve_left fun hn => hn hd
    have hp : parseCommand (.create name o) =
        .error ⟨"--language", o.language, languageChoices⟩ := by
      simp only [parseCommand]
      rw [if_pos hd, if_neg hl]
    rw [cliInvoke_error hb env (some []) _ _ hp]
    exact ⟨⟨_, rfl, Or.inr rfl⟩, handlerCalls_warnEventsOf env⟩
  · have hp : parseCommand (.create name o) =
        .error ⟨"--difficulty", o.difficulty, difficultyChoices⟩ := by
      simp only [parseCommand]
      rw [if_neg hd]
    rw [cliInvoke_error hb env (some []) _ _ hp]
    exact ⟨⟨_, rfl, Or.inl rfl⟩, handlerCalls_warnEventsOf env⟩

/-- Witness for C1 at the concrete input `create python-basics
--difficulty expert`: the hypothesis holds and the invocation ends in a
usage error reporting a permitted set, with no handler call. -/
theorem create_invalid_choice_usage_error_witness :
    (((CreateOpts.mk "module-basic" "programming" "expert" "ru" false).difficulty ∉
        difficultyChoices ∨
      (CreateOpts.mk "module-basic" "programming" "expert" "ru" false).language ∉
        languageChoices) ∧
     ((∃ e : UsageError,
        (cliInvoke normalBehavior ⟨some "tok"⟩ (some [])
            (.create "python-basics"
              (CreateOpts.mk "module-basic" "programming" "expert" "ru" false))).outcome =
          .usageError e ∧
        (e.choices = difficultyChoices ∨ e.choices = languageChoices)) ∧
      handlerCalls (cliInvoke normalBehavior ⟨some "tok"⟩ (some [])
          (.create "python-basics"
            (CreateOpts.mk "module-basic" "programming" "expert" "ru" false))).events = [])) :=
  ⟨by decide,
   create_invalid_choice_usage_error normalBehavior ⟨some "tok"⟩ "python-basics"
     (CreateOpts.mk "module-basic" "programming" "expert" "ru" false) (by decide)⟩

/-- Claim C2: invoking `create` with only a module name and every
option left at its default calls the creation handler exactly once,
with exactly the arguments name, template `module-basic`, category
`programming`, difficulty `beginner`, language `ru`,
interactive `false` (and the shared context built by the group). -/
theorem create_defaults_calls_handler_once (hb : HandlerBehavior) (env : Env)
    (name : String) :
    handlerCalls (main hb env (.create name {})).events =
      [.callCreateModule { obj := some [] } name "module-basic" "programming"
        "beginner" "ru" false] := by
  have hp : parseCommand (.create name {}) =
      .ok (.create name "module-basic" "programming" "beginner" "ru" false) := rfl
  rw [handlerCalls_main, cliInvoke_ok hb env (some []) _ _ hp]
  show handlerCalls (warnEventsOf env ++
    [.callCreateModule { obj := some [] } name "module-basic" "programming"
      "beginner" "ru" false]) = _
  rw [handlerCalls_append, handlerCalls_warnEventsOf]
  rfl

/-- Claim C3: at the entry point, any uncaught exception other than a
user interrupt is caught, rendered as a single message prefixed with
the failure marker on the error stream, and the process exits with
code 1 — handler errors never crash the process silently. -/
theorem entrypoint_reports_exception (hb : HandlerBehavior) (env : Env)
    (raw : RawCommand) (m : String)
    (h : (cliInvoke hb env (some []) raw).outcome = .exception m) :
    (main hb env raw).exitCode = 1 ∧
    errEvents (main hb env raw).events = [.echoErr (failureMarker ++ m)] := by
  rw [main_exception hb env raw m h]
  refine ⟨rfl, ?_⟩
  show errEvents (_ ++ _) = _
  rw [errEvents_append, errEvents_cliInvoke]
  rfl

/-- Witness for C3: a handler raising `boom` during `delete module-x`
yields exit code 1 and exactly one failure-marker message on the error
stream. -/
theorem entrypoint_reports_exception_witness :
    (cliInvoke (raisingBehavior "boom") ⟨some "tok"⟩ (some [])
        (.delete "module-x" false false)).outcome = .exception "boom" ∧
    ((main (raisingBehavior "boom") ⟨some "tok"⟩ (.delete "module-x" false false)).exitCode = 1 ∧
     errEvents (main (raisingBehavior "boom") ⟨some "tok"⟩
        (.delete "module-x" false false)).events = [.echoErr (failureMarker ++ "boom")]) :=
  ⟨rfl,
   entrypoint_reports_exception (raisingBehavior "boom") ⟨some "tok"⟩
     (.delete "module-x" false false) "boom" rfl⟩

/-- Claim C4: a user interrupt during any command execution is caught
at the entry point, the cancellation notice — distinguishable from
every generic failure message — is printed, and the process exits with
code 1. -/
theorem entrypoint_reports_interrupt (hb : HandlerBehavior) (env : Env)
    (raw : RawCommand)
    (h : (cliInvoke hb env (some []) raw).outcome = .keyboardInterrupt) :
    (main hb env raw).exitCode = 1 ∧
    (main hb env raw).events =
      (cliInvoke hb env (some []) raw).events ++ [.echoOut cancellationNotice] ∧
    (∀ m : String, cancellationNotice ≠ failureMarker ++ m) := by
  rw [main_interrupt hb env raw h]
  exact ⟨rfl, rfl, cancellationNotice_ne_failure⟩

/-- Witness for C4: an interrupt during `delete module-x` yields exit
code 1 and the cancellation notice appended to the trace. -/
theorem entrypoint_reports_interrupt_witness :
    (cliInvoke interruptBehavior ⟨some "tok"⟩ (some [])
        (.delete "module-x" false false)).outcome = .keyboardInterrupt ∧
    ((main interruptBehavior ⟨some "tok"⟩ (.delete "module-x" false false)).exitCode = 1 ∧
     (main interruptBehavior ⟨some "tok"⟩ (.delete "module-x" false false)).events =
       (cliInvoke interruptBehavior ⟨some "tok"⟩ (some [])
          (.delete "module-x" false false)).events ++ [.echoOut cancellationNotice] ∧
     (∀ m : String, cancellationNotice ≠ failureMarker ++ m)) :=
  ⟨rfl,
   entrypoint_reports_interrupt interruptBehavior ⟨some "tok"⟩
     (.delete "module-x" false false) rfl⟩

/-- Claim C9: the cancellation notice printed on a user interrupt goes
to standard output, not the error stream (nothing at all reaches the
error stream on that path); only the generic uncaught-failure message
is written to the error stream. -/
theorem interrupt_notice_on_stdout (hb : HandlerBehavior) (env : Env)
    (raw : RawCommand) :
    ((cliInvoke hb env (some []) raw).outcome = .keyboardInterrupt →
      (main hb env raw).events =
        (cliInvoke hb env (some []) raw).events ++ [.echoOut cancellationNotice] ∧
      errEvents (main hb env raw).events = []) ∧
    (∀ m : String, (cliInvoke hb env (some []) raw).outcome = .exception m →
      errEvents (main hb env raw).events = [.echoErr (failureMarker ++ m)]) := by
  constructor
  · intro h
    rw [main_interrupt hb env raw h]
    refine ⟨rfl, ?_⟩
    show errEvents (_ ++ _) = _
    rw [errEvents_append, errEvents_cliInvoke]
    rfl
  · intro m h
    rw [main_exception hb env raw m h]
    show errEvents (_ ++ _) = _
    rw [errEvents_append, errEvents_cliInvoke]
    rfl

/-- Witness for C9: with an interrupting handler on `delete module-x`,
the cancellation notice is on standard output and the error stream
stays empty. -/
theorem interrupt_notice_on_stdout_witness :
    (cliInvoke interruptBehavior ⟨none⟩ (some [])
        (.delete "module-x" false false)).outcome = .keyboardInterrupt ∧
    errEvents (main interruptBehavior ⟨none⟩ (.delete "module-x" false false)).events = [] :=
  ⟨rfl,
   ((interrupt_notice_on_stdout interruptBehavior ⟨none⟩
      (.delete "module-x" false false)).1 rfl).2⟩

/-- Claim C5: with `GITHUB_TOKEN` unset, every sub-command invocation
prints the non-fatal warning exactly once, at the group level before
the sub-command's own output, and the sub-command still runs to
completion (for any parsable command whose handler returns normally). -/
theorem token_warning_once_nonfatal (hb : HandlerBehavior) (env : Env)
    (raw : RawCommand) (cmd : Command)
    (hp : parseCommand raw = .ok cmd)
    (henv : env.githubToken = none)
    (hnormal : ∀ c ctx, hb c ctx = .normal) :
    (cliInvoke hb env (some []) raw).events =
      warningLines.map Event.echoOut ++ (runCommand hb { obj := some [] } cmd).1 ∧
    (cliInvoke hb env (some []) raw).outcome = .completed ∧
    warnCount (cliInvoke hb env (some []) raw).events = 1 := by
  have hw : warnEventsOf env = warningLines.map Event.echoOut := by
    simp [warnEventsOf, tokenFalsy, henv]
  rw [cliInvoke_ok hb env (some []) raw cmd hp]
  refine ⟨?_, ?_, ?_⟩
  · show warnEventsOf env ++ _ = _
    rw [hw]
    rfl
  · show outcomeOfResult (runCommand hb (ensureObject { obj := some [] }) cmd).2 = _
    cases cmd with
    | create n t c d l i =>
        show outcomeOfResult (hb (.create n t c d l i) { obj := some [] }) = _
        rw [hnormal]
        rfl
    | delete n f r =>
        show outcomeOfResult (hb (.delete n f r) { obj := some [] }) = _
        rw [hnormal]
        rfl
    | validate p => rfl
    | version => rfl
  · show warnCount (warnEventsOf env ++ _) = 1
    rw [hw, warnCount_append, warnCount_warningLines, warnCount_runCommand]

/-- Witness for C5 at `validate .` with the token unset: the warning
lines open the trace exactly once and the command completes. -/
theorem token_warning_once_nonfatal_witness :
    (parseCommand (.validate ".") = .ok (.validate ".") ∧
     (Env.mk none).githubToken = none ∧
     (∀ c ctx, normalBehavior c ctx = .normal)) ∧
    ((cliInvoke normalBehavior ⟨none⟩ (some []) (.validate ".")).events =
       warningLines.map Event.echoOut ++
         (runCommand normalBehavior { obj := some [] } (.validate ".")).1 ∧
     (cliInvoke normalBehavior ⟨none⟩ (some []) (.validate ".")).outcome = .completed ∧
     warnCount (cliInvoke normalBehavior ⟨none⟩ (some []) (.validate ".")).events = 1) :=
  ⟨⟨rfl, rfl, fun _ _ => rfl⟩,
   token_warning_once_nonfatal normalBehavior ⟨none⟩ (.validate ".") (.validate ".")
     rfl rfl (fun _ _ => rfl)⟩

/-- Claim C6: for every path argument, the `validate` command prints a
message containing the given path and the fixed coming-soon notice,
exits with code 0, and has no other effect: its trace consists of
exactly those two standard-output echoes after the group-level warning
events, with no handler call (the source of `validate` only calls
`click.echo`, so the embedding records no filesystem access). -/
theorem validate_prints_and_exits_zero (hb : HandlerBehavior) (env : Env)
    (path : String) :
    (main hb env (.validate path)).exitCode = 0 ∧
    (main hb env (.validate path)).events =
      warnEventsOf env ++
        [.echoOut ("🔍 Validating module at: " ++ path),
         .echoOut "⚠️  Validation feature coming soon..."] ∧
    (∃ pre : String, "🔍 Validating module at: " ++ path = pre ++ path) ∧
    handlerCalls (main hb env (.validate path)).events = [] := by
  have hp : parseCommand (.validate path) = .ok (.validate path) := rfl
  have hout : (cliInvoke hb env (some []) (.validate path)).outcome = .completed := by
    rw [cliInvoke_ok hb env (some []) _ _ hp]
    rfl
  rw [main_completed hb env (.validate path) hout,
    cliInvoke_ok hb env (some []) _ _ hp]
  refine ⟨rfl, rfl, ⟨"🔍 Validating module at: ", rfl⟩, ?_⟩
  show handlerCalls (warnEventsOf env ++ _) = []
  rw [handlerCalls_append, handlerCalls_warnEventsOf]
  rfl

/-- Claim C7: the `version` command always prints the literal line
`info_tech_cli version 0.1.0` and exits with code 0, whatever the
environment (in particular whether `GITHUB_TOKEN` is set or not). -/
theorem version_prints_literal (hb : HandlerBehavior) (env : Env) :
    (main hb env .version).exitCode = 0 ∧
    Event.echoOut "info_tech_cli version 0.1.0" ∈ (main hb env .version).events ∧
    (main hb env .version).events =
      warnEventsOf env ++
        [.echoOut "info_tech_cli version 0.1.0",
         .echoOut "InfoTech.io Educational Platform CLI",
         .echoOut "Author: A1eksMa <a1ex_ma@mail.ru>"] := by
  have hp : parseCommand .version = .ok .version := rfl
  have hout : (cliInvoke hb env (some []) .version).outcome = .completed := by
    rw [cliInvoke_ok hb env (some []) _ _ hp]
    rfl
  rw [main_completed hb env .version hout, cliInvoke_ok hb env (some []) _ _ hp]
  refine ⟨rfl, ?_, rfl⟩
  show _ ∈ warnEventsOf env ++ _
  exact List.mem_append_right _ (List.mem_cons_self _ _)

/-- The call `ctx.ensure_object(dict)` always leaves a non-null context object,
whatever the context held before. -/
theorem ensureObject_obj_isSome (c : ClickCtx) : ∃ d, (ensureObject c).obj = some d := by
  cases h : c.obj with
  | none => exact ⟨[], by simp [ensureObject, h]⟩
  | some d => exact ⟨d, by simp [ensureObject, h]⟩

theorem isHandlerCall_warnEventsOf (env : Env) (e : Event)
    (he : e ∈ warnEventsOf env) : e.isHandlerCall = false := by
  unfold warnEventsOf at he
  split at he
  · simp only [List.mem_map] at he
    obtain ⟨s, _, rfl⟩ := he
    rfl
  · exact absurd he (List.not_mem_nil e)

/-- Claim C8: before any handler executes, the invocation context
object exists and is non-null (at minimum an empty dictionary): every
handler-call event in any invocation — whatever object the group was
started with, even none — hands its handler a context whose `obj` is a
dictionary. -/
theorem context_exists_before_handler (hb : HandlerBehavior) (env : Env)
    (obj : Option Dict) (raw : RawCommand) (e : Event)
    (he : e ∈ (cliInvoke hb env obj raw).events)
    (hcall : e.isHandlerCall = true) :
    ∃ ctx d, e.handlerCtx = some ctx ∧ ctx.obj = some d := by
  cases hp : parseCommand raw with
  | error err =>
      rw [cliInvoke_error hb env obj raw err hp] at he
      rw [isHandlerCall_warnEventsOf env e he] at hcall
      exact Bool.noConfusion hcall
  | ok cmd =>
      rw [cliInvoke_ok hb env obj raw cmd hp] at he
      have he2 : e ∈ warnEventsOf env ∨
          e ∈ (runCommand hb (ensureObject { obj := obj }) cmd).1 :=
        List.mem_append.mp he
      cases he2 with
      | inl hw =>
          rw [isHandlerCall_warnEventsOf env e hw] at hcall
          exact Bool.noConfusion hcall
      | inr hr =>
          obtain ⟨d, hd⟩ := ensureObject_obj_isSome { obj := obj }
          cases cmd with
          | create n t c dd l i =>
              have hE : e = .callCreateModule (ensureObject { obj := obj }) n t c dd l i := by
                simpa [runCommand] using hr
              subst hE
              exact ⟨ensureObject { obj := obj }, d, rfl, hd⟩
          | delete n f r =>
              have hE : e = .callDeleteModule (ensureObject { obj := obj }) n f r := by
                simpa [runCommand] using hr
              subst hE
              exact ⟨ensureObject { obj := obj }, d, rfl, hd⟩
          | validate p =>
              have hE : e = .echoOut ("🔍 Validating module at: " ++ p) ∨
                  e = .echoOut "⚠️  Validation feature coming soon..." := by
                simpa [runCommand] using hr
              cases hE with
              | inl h1 =>
                  subst h1
                  exact Bool.noConfusion hcall
              | inr h2 =>
                  subst h2
                  exact Bool.noConfusion hcall
          | version =>
              have hE : e = .echoOut "info_tech_cli version 0.1.0" ∨
                  e = .echoOut "InfoTech.io Educational Platform CLI" ∨
                  e = .echoOut "Author: A1eksMa <a1ex_ma@mail.ru>" := by
                simpa [runCommand] using hr
              rcases hE with h1 | h1 | h1 <;> (subst h1; exact Bool.noConfusion hcall)

/-- Witness for C8: launching `delete module-x` with no context object
at all, the recorded handler call still carries a context holding the
(empty) dictionary that `ensure_object` created. -/
theorem context_exists_before_handler_witness :
    (Event.callDeleteModule { obj := some [] } "module-x" false false ∈
        (cliInvoke normalBehavior ⟨some "tok"⟩ none (.delete "module-x" false false)).events ∧
     (Event.callDeleteModule { obj := some [] } "module-x" false false).isHandlerCall = true) ∧
    (∃ ctx d,
        (Event.callDeleteModule { obj := some [] } "module-x" false false).handlerCtx =
          some ctx ∧ ctx.obj = some d) :=
  ⟨⟨by decide, rfl⟩,
   context_exists_before_handler normalBehavior ⟨some "tok"⟩ none
     (.delete "module-x" false false)
     (Event.callDeleteModule { obj := some [] } "module-x" false false) (by decide) rfl⟩

theorem tokenFalsy_iff (t : Option String) :
    tokenFalsy t = true ↔ (t = none ∨ t = some "") := by
  cases t with
  | none => simp [tokenFalsy]
  | some s => simp [tokenFalsy]

/-- The warning line never occurs in a sub-command's own output. -/
theorem warning_not_in_runCommand (hb : HandlerBehavior) (ctx : ClickCtx) (cmd : Command) :
    Event.echoOut "Warning: GITHUB_TOKEN not found in environment" ∉
      (runCommand hb ctx cmd).1 := by
  cases cmd with
  | create n t c d l i => simp [runCommand]
  | delete n f r => simp [runCommand]
  | validate p =>
      intro h
      have hE : Event.echoOut "Warning: GITHUB_TOKEN not found in environment" =
          .echoOut ("🔍 Validating module at: " ++ p) ∨
          Event.echoOut "Warning: GITHUB_TOKEN not found in environment" =
          .echoOut "⚠️  Validation feature coming soon..." := by
        simpa [runCommand] using h
      cases hE with
      | inl h1 =>
          have h2 : "Warning: GITHUB_TOKEN not found in environment" =
              "🔍 Validating module at: " ++ p := by
            injection h1
          exact validateMsg_ne_warning p h2.symm
      | inr h2 =>
          have h3 : Event.echoOut "Warning: GITHUB_TOKEN not found in environment" ≠
              .echoOut "⚠️  Validation feature coming soon..." := by
            decide
          exact h3 h2
  | version =>
      show Event.echoOut "Warning: GITHUB_TOKEN not found in environment" ∉
        [.echoOut "info_tech_cli version 0.1.0",
         .echoOut "InfoTech.io Educational Platform CLI",
         .echoOut "Author: A1eksMa <a1ex_ma@mail.ru>"]
      decide

/-- Claim C10: the missing-credential warning is emitted not only when
`GITHUB_TOKEN` is unset but for every falsy value: the warning line
occurs in the trace exactly when the retrieved value is `None` or the
empty string — in particular when the variable is set to `""`. -/
theorem warning_iff_token_falsy (hb : HandlerBehavior) (env : Env) (raw : RawCommand) :
    Event.echoOut "Warning: GITHUB_TOKEN not found in environment" ∈
        (cliInvoke hb env (some []) raw).events ↔
      (env.githubToken = none ∨ env.githubToken = some "") := by
  rw [← tokenFalsy_iff]
  constructor
  · intro hmem
    cases hft : tokenFalsy env.githubToken with
    | true => rfl
    | false =>
        have hw : warnEventsOf env = [] := by simp [warnEventsOf, hft]
        cases hp : parseCommand raw with
        | error err =>
            rw [cliInvoke_error hb env (some []) raw err hp] at hmem
            replace hmem : Event.echoOut "Warning: GITHUB_TOKEN not found in environment" ∈
              warnEventsOf env := hmem
            rw [hw] at hmem
            exact absurd hmem (List.not_mem_nil _)
        | ok cmd =>
            rw [cliInvoke_ok hb env (some []) raw cmd hp] at hmem
            replace hmem : Event.echoOut "Warning: GITHUB_TOKEN not found in environment" ∈
              warnEventsOf env ++ (runCommand hb (ensureObject { obj := some [] }) cmd).1 :=
              hmem
            rw [hw, List.nil_append] at hmem
            exact absurd hmem (warning_not_in_runCommand hb _ cmd)
  · intro hft
    have hw : warnEventsOf env = warningLines.map Event.echoOut := by
      simp [warnEventsOf, hft]
    have hmemw : Event.echoOut "Warning: GITHUB_TOKEN not found in environment" ∈
        warnEventsOf env := by
      rw [hw]
      decide
    cases hp : parseCommand raw with
    | error err =>
        rw [cliInvoke_error hb env (some []) raw err hp]
        exact hmemw
    | ok cmd =>
        rw [cliInvoke_ok hb env (some []) raw cmd hp]
        show _ ∈ warnEventsOf env ++ _
        exact List.mem_append_left _ hmemw

end InfoTechCli
